import Mathlib

/-!
# Compliance Fort — verification of the batch ZK-proof service core

Shallow embedding of `src/api/app.py` (the Compliance Fort API): the
`CMessage` proof record, the mock/real engine dispatch, the single-item
helpers `create_zk_proof` / `verify_zk_proof`, and the batch endpoints
`batch_verify_proofs` / `batch_create_proofs`.

The native Fortran library (`libcompliance_fort`) is not part of the
reviewed sources; its five entry points are modelled from the spec as an
abstract `RealEngine` (see the doc comments marked `Modelled from the
spec:`).  Everything else is translated line-by-line from `app.py`.

Two views of the same Python code are embedded:

* an *instrumented* view that threads a clock and an event trace through
  each handler, so that timing (`elapsed_ms`), timestamps (`utcnow`) and
  "how many engine calls happened" are provable facts; and
* an *exception* view (`…E` definitions) in which engine operations may
  fail, used for the error-handling claims.

Machine integers: every value that crosses the ctypes boundary (a
`CMessage` field, a `c_int` argument) is silently truncated to a signed
32-bit integer; `toInt32` models that truncation.  Values held in plain
Python / pydantic objects are unbounded and are modelled as `Int`.
-/

/-- Signed 32-bit truncation as performed by `ctypes.c_int`:
wrap into `[-2^31, 2^31)`. -/
def toInt32 (n : Int) : Int := (n + 2 ^ 31) % 2 ^ 32 - 2 ^ 31

/-- `n` fits in a signed 32-bit integer (so `toInt32` leaves it alone). -/
def Int32Range (n : Int) : Prop := -(2 ^ 31) ≤ n ∧ n < 2 ^ 31

instance (n : Int) : Decidable (Int32Range n) := by
  unfold Int32Range; infer_instance

theorem toInt32_eq_self {n : Int} (h : Int32Range n) : toInt32 n = n := by
  obtain ⟨h1, h2⟩ := h
  unfold toInt32
  omega

theorem toInt32_range (n : Int) : Int32Range (toInt32 n) := by
  unfold Int32Range toInt32
  constructor <;> omega

theorem toInt32_idem (n : Int) : toInt32 (toInt32 n) = toInt32 n :=
  toInt32_eq_self (toInt32_range n)

/-- The `CMessage` ctypes structure of `app.py`: five `c_int` fields
`(id, data, proof_r, proof_s, public_key)`. -/
structure CMessage where
  id : Int
  data : Int
  proof_r : Int
  proof_s : Int
  public_key : Int
deriving DecidableEq, Repr

/-- Constructing a `CMessage` in Python truncates every field to
`c_int` (ctypes does no overflow checking). -/
def CMessage.mk32 (id data r s pk : Int) : CMessage :=
  ⟨toInt32 id, toInt32 data, toInt32 r, toInt32 s, toInt32 pk⟩

/-- Python `x or d` for `x : Optional[int]`: `None` and `0` are falsy. -/
def pyOrInt (x : Option Int) (d : Int) : Int :=
  match x with
  | none => d
  | some v => if v = 0 then d else v

/-- Modelled from the spec: the native Fortran library
`libcompliance_fort` is not under `src/`; §4.2 of the spec gives only its
interface contract.  A `RealEngine` is an arbitrary implementation of that
contract: `derive` is `generate_public_key` (deterministic function of the
secret), `mkR`/`mkS` are the scheme-specific proof parts as functions of
`(id, data, secret, public_key)`, and `verifyR` is the pure verification
predicate on public data.  `create` produces the proof record binding the
given `(id, data)` to the given public key (the record echoes `id`/`data`
and carries `public_key`, per §3 and the shared-key invariant of §4.3);
all values crossing the boundary are 32-bit. -/
structure RealEngine where
  derive : Int → Int
  mkR : Int → Int → Int → Int → Int
  mkS : Int → Int → Int → Int → Int
  verifyR : CMessage → Int → Bool

/-- Modelled from the spec: `create_zk_proof` in the native library
(§4.2 `create`).  Inputs cross as `c_int`; the returned record carries the
caller's `id`, `data` and `public_key` (32-bit wrapped) plus the two
scheme-specific proof parts. -/
def RealEngine.create (e : RealEngine) (id data secret pk : Int) : CMessage :=
  CMessage.mk32 id data
    (e.mkR (toInt32 id) (toInt32 data) (toInt32 secret) (toInt32 pk))
    (e.mkS (toInt32 id) (toInt32 data) (toInt32 secret) (toInt32 pk))
    pk

/-- Modelled from the spec: `verify_zk_proof` in the native library
(§4.2 `verify`): a pure boolean function of the record and the public key. -/
def RealEngine.verify (e : RealEngine) (m : CMessage) (pk : Int) : Bool :=
  e.verifyR m (toInt32 pk)

/-- Modelled from the spec: `batch_create` in the native library — §4.2:
"semantically equivalent to calling `create` count times with a shared
secret/public key, preserving input order in the output order". -/
def RealEngine.batchCreate (e : RealEngine) (ids datas : List Int)
    (secret pk : Int) : List CMessage :=
  List.zipWith (fun i dd => e.create i dd secret pk) ids datas

/-- Modelled from the spec: `batch_verify` in the native library — §4.2:
"semantically equivalent to calling `verify` count times against a shared
public key, in order; `valid_count` must equal the number of `true`
entries in `results`". -/
def RealEngine.batchVerify (e : RealEngine) (msgs : List CMessage)
    (pk : Int) : Nat × List Bool :=
  let rs := msgs.map (fun m => e.verify m pk)
  (rs.count true, rs)

/-- Engine resolution outcome (`lib is None` in `app.py`): either the
native library loaded (`real`), or the process runs in mock mode. -/
inductive Engine where
  | mock : Engine
  | real : RealEngine → Engine

/-- `create_zk_proof` helper of `app.py` (lines 155-164).
Mock mode returns `CMessage(id, data, 123, 456, pub_key or 17)`;
real mode derives the key only when `pub_key is None` and delegates to
the library. -/
def create_zk_proof (eng : Engine) (id data secret_key : Int)
    (pub_key : Option Int) : CMessage :=
  match eng with
  | .mock => CMessage.mk32 id data 123 456 (pyOrInt pub_key 17)
  | .real e =>
      let pk : Int :=
        match pub_key with
        | none => toInt32 (e.derive (toInt32 secret_key))
        | some p => p
      e.create id data secret_key pk

/-- `verify_zk_proof` helper of `app.py` (lines 166-171): mock mode
always returns `True`. -/
def verify_zk_proof (eng : Engine) (msg : CMessage) (pub_key : Int) : Bool :=
  match eng with
  | .mock => true
  | .real e => e.verify msg pub_key

/-! ## Instrumented view: clock and event trace

`time.perf_counter()` / `datetime.now()` readings and the cost of each
boundary-crossing step are modelled by threading a state `St` through the
handlers: a rational clock plus an ordered event log.  The environment
`d : Ev → ℚ` says how much the clock advances across each kind of step
(real time elapsing during that step); a clock reading returns the clock
value at the moment of the call. -/

/-- Kinds of instrumented steps inside the two batch handlers. -/
inductive Ev where
  | perfCounter : Ev
  | utcnow : Ev
  | engDerive : Ev
  | engBatchVerify : Ev
  | engBatchCreate : Ev
  | marshal : Ev
  | buildRecord : Ev
deriving DecidableEq, Repr

/-- Instrumentation state: current clock and the event log so far. -/
structure St where
  clock : ℚ
  events : List Ev
deriving DecidableEq, Repr

/-- Perform one instrumented step: log it and let the clock advance by
its duration. -/
def St.emit (d : Ev → ℚ) (s : St) (e : Ev) : St :=
  ⟨s.clock + d e, s.events ++ [e]⟩

/-- Perform one instrumented step per element of a list (e.g. the
marshalling loop filling a ctypes array). -/
def St.emitMany (d : Ev → ℚ) (s : St) (es : List Ev) : St :=
  es.foldl (fun t e => t.emit d e) s

/-- `e ∈ Ev` is an invocation of the engine / native library. -/
def Ev.isEngine : Ev → Bool
  | .engDerive => true
  | .engBatchVerify => true
  | .engBatchCreate => true
  | _ => false

theorem St.emitMany_clock (d : Ev → ℚ) (s : St) (es : List Ev) :
    (St.emitMany d s es).clock = s.clock + (es.map d).sum := by
  induction es generalizing s with
  | nil => simp [St.emitMany]
  | cons e rest ih =>
      simp only [St.emitMany, List.foldl_cons] at *
      rw [ih]
      simp [St.emit]
      ring

theorem St.emitMany_events (d : Ev → ℚ) (s : St) (es : List Ev) :
    (St.emitMany d s es).events = s.events ++ es := by
  induction es generalizing s with
  | nil => simp [St.emitMany]
  | cons e rest ih =>
      simp only [St.emitMany, List.foldl_cons] at *
      rw [ih]
      simp [St.emit]

theorem St.emitMany_replicate_clock (d : Ev → ℚ) (s : St) (n : Nat) (e : Ev) :
    (St.emitMany d s (List.replicate n e)).clock = s.clock + n * d e := by
  rw [St.emitMany_clock]
  simp [List.map_replicate, List.sum_replicate, nsmul_eq_mul]

/-- Python `round(x, 3)`: reporting precision of `elapsed_ms`
(millisecond with three decimal digits).  Modelled as round-to-nearest;
the banker's tie-break of CPython differs only at exact half-thousandths,
below the resolution of any claim here. -/
def round3 (x : ℚ) : ℚ := (round (x * 1000) : ℚ) / 1000

/-- Pydantic `MessageResponse` in `app.py`: a proof record plus the
response timestamp (modelled as the clock reading that produced it). -/
structure MessageResponse where
  id : Int
  data : Int
  proof_r : Int
  proof_s : Int
  public_key : Int
  timestamp : ℚ
deriving DecidableEq, Repr

/-- The proof-record part of a `MessageResponse` (its `CMessage` fields,
timestamp dropped). -/
def MessageResponse.toMsg (p : MessageResponse) : CMessage :=
  ⟨p.id, p.data, p.proof_r, p.proof_s, p.public_key⟩

/-- Pydantic `VerifyRequest`: one proof record submitted for
verification. -/
structure VerifyReq where
  id : Int
  data : Int
  proof_r : Int
  proof_s : Int
  public_key : Int
deriving DecidableEq, Repr

/-- One `{id, data}` item of a `BatchCreateRequest`. -/
structure Item where
  id : Int
  data : Int
deriving DecidableEq, Repr

/-- Pydantic `BatchVerifyResponse`. -/
structure BatchVerifyResponse where
  total : Int
  valid_count : Int
  invalid_count : Int
  results : List Bool
  elapsed_ms : ℚ
  timestamp : ℚ
deriving DecidableEq, Repr

/-- Pydantic `BatchCreateResponse`. -/
structure BatchCreateResponse where
  proofs : List MessageResponse
  elapsed_ms : ℚ
  timestamp : ℚ
deriving DecidableEq, Repr

/-- `batch_verify_proofs` endpoint of `app.py` (lines 275-330),
instrumented.  Control flow mirrors the Python source: read
`perf_counter`, short-circuit on the empty batch, mock mode answers
`[True] * count`, real mode marshals one `CMessage` per proof, makes one
`batch_verify` library call and materialises the result array; then the
second `perf_counter` reading, rounding, and the response timestamp. -/
def batch_verify_proofs (eng : Engine) (d : Ev → ℚ) (proofs : List VerifyReq)
    (public_key : Int) (s0 : St) : BatchVerifyResponse × St :=
  let start := s0.clock
  let s1 := s0.emit d .perfCounter
  let count := proofs.length
  if count = 0 then
    let ts := s1.clock
    let s2 := s1.emit d .utcnow
    (⟨0, 0, 0, [], 0, ts⟩, s2)
  else
    let (results, valid_count, s2) :=
      match eng with
      | .mock => (List.replicate count true, (count : Int), s1)
      | .real e =>
          let messages := proofs.map
            (fun (p : VerifyReq) => CMessage.mk32 p.id p.data p.proof_r p.proof_s p.public_key)
          let sM := s1.emitMany d (List.replicate count .marshal)
          let sE := sM.emit d .engBatchVerify
          let (vc, rs) := e.batchVerify messages public_key
          let sR := sE.emitMany d (List.replicate count .buildRecord)
          (rs, (vc : Int), sR)
    let t1 := s2.clock
    let s3 := s2.emit d .perfCounter
    let elapsed := (t1 - start) * 1000
    let ts := s3.clock
    let s4 := s3.emit d .utcnow
    (⟨(count : Int), valid_count, (count : Int) - valid_count, results,
      round3 elapsed, ts⟩, s4)

/-- The mock-mode list comprehension of `batch_create_proofs` (lines
348-355): each `MessageResponse` is built with its own `utcnow()` call. -/
def mockCreateLoop (d : Ev → ℚ) (items : List Item) (s : St) :
    List MessageResponse × St :=
  match items with
  | [] => ([], s)
  | it :: rest =>
      let ts := s.clock
      let s1 := s.emit d .utcnow
      let (ps, s2) := mockCreateLoop d rest s1
      (⟨it.id, it.data, 123, 456, 17, ts⟩ :: ps, s2)

/-- `batch_create_proofs` endpoint of `app.py` (lines 332-384),
instrumented.  Mirrors the source: read `perf_counter`, short-circuit on
zero items; in mock mode build the responses directly from the items
(fixed proof parts `123`/`456`, key `17`, per-item `utcnow`); in real
mode resolve `pub_key = request.public_key or generate_public_key(...)`
(so `0` falls back to derivation), marshal the id/data arrays, make one
`batch_create` library call, take one shared `utcnow`, and build one
response record per result message. -/
def batch_create_proofs (eng : Engine) (d : Ev → ℚ) (items : List Item)
    (secret_key : Int) (public_key : Option Int) (s0 : St) :
    BatchCreateResponse × St :=
  let start := s0.clock
  let s1 := s0.emit d .perfCounter
  let count := items.length
  if count = 0 then
    let ts := s1.clock
    let s2 := s1.emit d .utcnow
    (⟨[], 0, ts⟩, s2)
  else
    let (proofs, s2) :=
      match eng with
      | .mock => mockCreateLoop d items s1
      | .real e =>
          let (pk, sK) :=
            match public_key with
            | some p =>
                if p = 0 then (toInt32 (e.derive (toInt32 secret_key)),
                               s1.emit d .engDerive)
                else (p, s1)
            | none => (toInt32 (e.derive (toInt32 secret_key)),
                       s1.emit d .engDerive)
          let ids := items.map (fun (it : Item) => toInt32 it.id)
          let datas := items.map (fun (it : Item) => toInt32 it.data)
          let sM := sK.emitMany d (List.replicate count .marshal)
          let sE := sM.emit d .engBatchCreate
          let messages := e.batchCreate ids datas secret_key pk
          let now := sE.clock
          let sN := sE.emit d .utcnow
          let sR := sN.emitMany d (List.replicate count .buildRecord)
          (messages.map (fun (m : CMessage) =>
            ⟨m.id, m.data, m.proof_r, m.proof_s, m.public_key, now⟩), sR)
    let t1 := s2.clock
    let s3 := s2.emit d .perfCounter
    let elapsed := (t1 - start) * 1000
    let ts := s3.clock
    let s4 := s3.emit d .utcnow
    (⟨proofs, round3 elapsed, ts⟩, s4)

/-! ## Exception view

The same handlers, viewed through Python exception control flow: engine
operations may raise (`Except Unit`), and the question is where the
exception is caught.  `create_proof` / `verify_proof` (lines 192-250)
wrap their body in `try/except` and re-raise `HTTPException(500)`; the
batch handlers (lines 275-384) have no `try` block, so an engine
exception propagates out of them uncaught. -/

/-- Exception outcome at a handler boundary: either an uncaught engine
exception propagating out of the handler, or an `HTTPException` the
handler itself raised. -/
inductive PyErr where
  | engineFailure : PyErr
  | httpException : Nat → PyErr
deriving DecidableEq, Repr

/-- Is this error a handler-reported HTTP failure (as opposed to an
uncaught exception)? -/
def PyErr.isHttp : PyErr → Bool
  | .engineFailure => false
  | .httpException _ => true

/-- Modelled from the spec: the native library's operations as fallible
computations — §4.2 error conditions: "`create`/`verify` fail with
`EngineFailure` if the delegate computation cannot complete (e.g., native
call aborts)".  Each field is the fallible counterpart of the
corresponding `RealEngine` operation. -/
structure EngineOps where
  deriveOp : Int → Except Unit Int
  createOp : Int → Int → Int → Int → Except Unit CMessage
  verifyOp : CMessage → Int → Except Unit Bool
  batchVerifyOp : List CMessage → Int → Except Unit (Nat × List Bool)
  batchCreateOp : List Int → List Int → Int → Int → Except Unit (List CMessage)

/-- Engine resolution, exception view. -/
inductive EngineE where
  | mock : EngineE
  | real : EngineOps → EngineE

/-- `create_zk_proof` helper (lines 155-164), exception view: the helper
itself has no `try`, so a failure of `generate_public_key` or
`create_zk_proof` in the library propagates to the caller. -/
def create_zk_proofE (eng : EngineE) (id data secret_key : Int)
    (pub_key : Option Int) : Except Unit CMessage :=
  match eng with
  | .mock => .ok (CMessage.mk32 id data 123 456 (pyOrInt pub_key 17))
  | .real ops =>
      match pub_key with
      | none => do
          let pk ← ops.deriveOp (toInt32 secret_key)
          ops.createOp id data secret_key pk
      | some p => ops.createOp id data secret_key p

/-- `verify_zk_proof` helper (lines 166-171), exception view. -/
def verify_zk_proofE (eng : EngineE) (msg : CMessage) (pub_key : Int) :
    Except Unit Bool :=
  match eng with
  | .mock => .ok true
  | .real ops => ops.verifyOp msg pub_key

/-- `create_proof` endpoint (lines 192-220), exception view: the
`try/except` converts any exception from the proof-creation call into
`HTTPException(500)`; on success the full record is returned. -/
def create_proofE (eng : EngineE) (id data secret_key : Int)
    (pub_key : Option Int) : Except PyErr CMessage :=
  match create_zk_proofE eng id data secret_key pub_key with
  | .ok m => .ok m
  | .error _ => .error (.httpException 500)

/-- `verify_proof` endpoint (lines 222-250), exception view: builds the
`CMessage` from the request and verifies it inside `try/except`. -/
def verify_proofE (eng : EngineE) (req : VerifyReq) : Except PyErr Bool :=
  let msg := CMessage.mk32 req.id req.data req.proof_r req.proof_s req.public_key
  match verify_zk_proofE eng msg req.public_key with
  | .ok b => .ok b
  | .error _ => .error (.httpException 500)

/-- The business part of a `BatchVerifyResponse` (exception view drops
the timing fields). -/
structure BatchVerifyResult where
  total : Int
  valid_count : Int
  invalid_count : Int
  results : List Bool
deriving DecidableEq, Repr

/-- `batch_verify_proofs` endpoint (lines 275-330), exception view: no
`try` block — a failing `batch_verify` library call propagates out of the
handler uncaught. -/
def batch_verify_proofsE (eng : EngineE) (proofs : List VerifyReq)
    (public_key : Int) : Except PyErr BatchVerifyResult :=
  let count := proofs.length
  if count = 0 then .ok ⟨0, 0, 0, []⟩
  else
    match eng with
    | .mock => .ok ⟨(count : Int), (count : Int), 0, List.replicate count true⟩
    | .real ops =>
        let messages := proofs.map
          (fun (p : VerifyReq) => CMessage.mk32 p.id p.data p.proof_r p.proof_s p.public_key)
        match ops.batchVerifyOp messages public_key with
        | .ok (vc, rs) => .ok ⟨(count : Int), (vc : Int), (count : Int) - (vc : Int), rs⟩
        | .error _ => .error .engineFailure

/-- `batch_create_proofs` endpoint (lines 332-384), exception view: no
`try` block — a failing `generate_public_key` or `batch_create` library
call propagates out of the handler uncaught. -/
def batch_create_proofsE (eng : EngineE) (items : List Item)
    (secret_key : Int) (public_key : Option Int) : Except PyErr (List CMessage) :=
  let count := items.length
  if count = 0 then .ok []
  else
    match eng with
    | .mock => .ok (items.map
        (fun (it : Item) => (⟨it.id, it.data, 123, 456, 17⟩ : CMessage)))
    | .real ops =>
        let pkE : Except Unit Int :=
          match public_key with
          | some p =>
              if p = 0 then ops.deriveOp (toInt32 secret_key) else .ok p
          | none => ops.deriveOp (toInt32 secret_key)
        match pkE with
        | .error _ => .error .engineFailure
        | .ok pk =>
            match ops.batchCreateOp (items.map (fun (it : Item) => toInt32 it.id))
                (items.map (fun (it : Item) => toInt32 it.data)) secret_key pk with
            | .ok msgs => .ok msgs
            | .error _ => .error .engineFailure

/-! ## Helper lemmas and concrete instances -/

/-- A concrete conforming `RealEngine` instance (identity key
derivation, zero proof parts, accept-all verification), used to
instantiate spec-modelled engine parameters at concrete inputs. -/
def cexEngine : RealEngine :=
  ⟨fun s => s, fun _ _ _ _ => 0, fun _ _ _ _ => 0, fun _ _ => true⟩

/-- A concrete duration environment: every instrumented step takes one
clock unit. -/
def dOne : Ev → ℚ := fun _ => 1

/-- Initial instrumentation state: clock at zero, empty trace. -/
def st0 : St := ⟨0, []⟩

/-- A concrete `EngineOps` whose every operation fails, modelling a
native engine whose calls abort. -/
def failOps : EngineOps :=
  ⟨fun _ => .error (), fun _ _ _ _ => .error (), fun _ _ => .error (),
   fun _ _ => .error (), fun _ _ _ _ => .error ()⟩

theorem List.zipWith_map_same {α β γ δ : Type} (h : β → γ → δ)
    (f : α → β) (g : α → γ) (l : List α) :
    List.zipWith h (l.map f) (l.map g) = l.map (fun x => h (f x) (g x)) := by
  induction l with
  | nil => rfl
  | cons a t ih => simp [ih]

/-- Wrapping the id/data inputs of the spec-modelled `create` is
invisible: the engine truncates them itself. -/
theorem RealEngine.create_wrap (e : RealEngine) (a b c pk : Int) :
    e.create (toInt32 a) (toInt32 b) c pk = e.create a b c pk := by
  simp [RealEngine.create, CMessage.mk32, toInt32_idem]

/-- The records produced by the mock-mode create loop, timestamps
dropped: the items echoed with fixed proof parts `123`/`456` and key
`17`. -/
theorem mockCreateLoop_map_toMsg (d : Ev → ℚ) (items : List Item) (s : St) :
    (mockCreateLoop d items s).1.map MessageResponse.toMsg =
      items.map (fun it => (⟨it.id, it.data, 123, 456, 17⟩ : CMessage)) := by
  induction items generalizing s with
  | nil => rfl
  | cons it rest ih => simp [mockCreateLoop, MessageResponse.toMsg, ih]

/-- Trace of the mock-mode create loop: one `utcnow` call per item. -/
theorem mockCreateLoop_events (d : Ev → ℚ) (items : List Item) (s : St) :
    (mockCreateLoop d items s).2.events =
      s.events ++ List.replicate items.length .utcnow := by
  induction items generalizing s with
  | nil => simp [mockCreateLoop]
  | cons it rest ih =>
      simp [mockCreateLoop, ih, St.emit, List.replicate_succ]

/-- Clock after the mock-mode create loop. -/
theorem mockCreateLoop_clock (d : Ev → ℚ) (items : List Item) (s : St) :
    (mockCreateLoop d items s).2.clock =
      s.clock + items.length * d .utcnow := by
  induction items generalizing s with
  | nil => simp [mockCreateLoop]
  | cons it rest ih =>
      simp [mockCreateLoop, ih, St.emit]
      ring

/-- Timestamps attached by the mock-mode create loop: the `k`-th record
carries the clock reading of the `k`-th separate `utcnow` call. -/
theorem mockCreateLoop_timestamps (d : Ev → ℚ) (items : List Item) (s : St) :
    (mockCreateLoop d items s).1.map MessageResponse.timestamp =
      (List.range items.length).map
        (fun k : Nat => s.clock + (k : ℚ) * d .utcnow) := by
  induction items generalizing s with
  | nil => rfl
  | cons it rest ih =>
      simp only [mockCreateLoop, List.map_cons]
      rw [ih, List.length_cons, List.range_succ_eq_map, List.map_cons,
        List.map_map]
      refine congrArg₂ List.cons (by simp) ?_
      apply List.map_congr_left
      intro k _
      simp only [St.emit, Function.comp_apply]
      push_cast
      ring

/-! ## Claim theorems -/

/-- C9: Under the Mock Engine, create with `id=1, data=100, secret=7` and
no public key returns the record `(1, 100, 123, 456, 17)` — `id`/`data`
echoed, the fixed placeholder proof parts `123`/`456`, and the default
public key `17` — and verifying that returned record against key `17`
returns `true`. -/
theorem c9_mock_scenario_a :
    create_zk_proof .mock 1 100 7 none = ⟨1, 100, 123, 456, 17⟩ ∧
    verify_zk_proof .mock (create_zk_proof .mock 1 100 7 none) 17 = true := by
  constructor <;> decide

/-- C4: Under the Mock Engine, `verify_zk_proof` returns `true` for every
record and public key, and a mock-mode batch verify of `n` records
reports `results = [true] * n` and `valid_count = n`. -/
theorem c4_mock_always_valid (d : Ev → ℚ) (m : CMessage) (pk pk2 : Int)
    (proofs : List VerifyReq) (s0 : St) :
    verify_zk_proof .mock m pk = true ∧
    (batch_verify_proofs .mock d proofs pk2 s0).1.results =
      List.replicate proofs.length true ∧
    (batch_verify_proofs .mock d proofs pk2 s0).1.valid_count =
      (proofs.length : Int) := by
  refine ⟨rfl, ?_, ?_⟩ <;>
  · cases proofs with
    | nil => simp [batch_verify_proofs]
    | cons p t => simp [batch_verify_proofs]

/-- C2: For every batch verify response — either engine, any input list,
key and starting state — `len(results) = total`, `total` is the number of
input records, `valid_count` is the number of `true` entries in
`results`, and `invalid_count = total - valid_count`. -/
theorem c2_count_consistency (eng : Engine) (d : Ev → ℚ)
    (proofs : List VerifyReq) (pk : Int) (s0 : St) :
    ((batch_verify_proofs eng d proofs pk s0).1.results.length : Int) =
      (batch_verify_proofs eng d proofs pk s0).1.total ∧
    (batch_verify_proofs eng d proofs pk s0).1.total = (proofs.length : Int) ∧
    (batch_verify_proofs eng d proofs pk s0).1.valid_count =
      ((batch_verify_proofs eng d proofs pk s0).1.results.count true : Int) ∧
    (batch_verify_proofs eng d proofs pk s0).1.invalid_count =
      (batch_verify_proofs eng d proofs pk s0).1.total -
        (batch_verify_proofs eng d proofs pk s0).1.valid_count := by
  cases proofs with
  | nil => simp [batch_verify_proofs]
  | cons p t =>
      cases eng with
      | mock => simp [batch_verify_proofs, List.count_replicate]
      | real e => simp [batch_verify_proofs, RealEngine.batchVerify]

/-- C3: On an empty input, batch verify returns
`total=0, valid_count=0, invalid_count=0, results=[]` with
`elapsed_ms = 0`, batch create returns an empty proof list with
`elapsed_ms = 0`, and neither adds any engine invocation to the trace
(the trace grows only by the `perf_counter` and `utcnow` readings). -/
theorem c3_empty_batch (eng : Engine) (d : Ev → ℚ) (pk secret : Int)
    (opk : Option Int) (s0 : St) :
    (batch_verify_proofs eng d [] pk s0).1 =
      ⟨0, 0, 0, [], 0, s0.clock + d .perfCounter⟩ ∧
    (batch_verify_proofs eng d [] pk s0).2.events =
      s0.events ++ [.perfCounter, .utcnow] ∧
    ((batch_verify_proofs eng d [] pk s0).2.events.filter
        (fun e => e.isEngine)) =
      s0.events.filter (fun e => e.isEngine) ∧
    (batch_create_proofs eng d [] secret opk s0).1 =
      ⟨[], 0, s0.clock + d .perfCounter⟩ ∧
    (batch_create_proofs eng d [] secret opk s0).2.events =
      s0.events ++ [.perfCounter, .utcnow] ∧
    ((batch_create_proofs eng d [] secret opk s0).2.events.filter
        (fun e => e.isEngine)) =
      s0.events.filter (fun e => e.isEngine) := by
  refine ⟨?_, ?_, ?_, ?_, ?_, ?_⟩ <;>
    simp [batch_verify_proofs, batch_create_proofs, St.emit, Ev.isEngine,
      List.filter_append]


/-- The records of a non-empty real-mode batch create, timestamps
dropped: one spec-modelled `create` per item with the shared key resolved
by `request.public_key or generate_public_key(secret)`. -/
theorem batch_create_real_toMsg (e : RealEngine) (d : Ev → ℚ) (it : Item)
    (rest : List Item) (secret : Int) (opk : Option Int) (s0 : St) :
    ((batch_create_proofs (.real e) d (it :: rest) secret opk s0).1.proofs.map
        MessageResponse.toMsg) =
      (it :: rest).map (fun x =>
        e.create x.id x.data secret
          (pyOrInt opk (toInt32 (e.derive (toInt32 secret))))) := by
  cases opk with
  | none =>
      simp [batch_create_proofs, pyOrInt, RealEngine.batchCreate,
        List.zipWith_map_same, List.map_map, MessageResponse.toMsg,
        Function.comp, RealEngine.create_wrap]
  | some p =>
      by_cases hp : p = 0 <;>
        simp [batch_create_proofs, pyOrInt, hp, RealEngine.batchCreate,
          List.zipWith_map_same, List.map_map, MessageResponse.toMsg,
          Function.comp, RealEngine.create_wrap]

/-- The records of a non-empty mock-mode batch create, timestamps
dropped: items echoed with the fixed placeholders, any supplied key
ignored. -/
theorem batch_create_mock_toMsg (d : Ev → ℚ) (it : Item) (rest : List Item)
    (secret : Int) (opk : Option Int) (s0 : St) :
    ((batch_create_proofs .mock d (it :: rest) secret opk s0).1.proofs.map
        MessageResponse.toMsg) =
      (it :: rest).map (fun x => (⟨x.id, x.data, 123, 456, 17⟩ : CMessage)) := by
  simp only [batch_create_proofs, List.length_cons]
  rw [if_neg (by simp)]
  exact mockCreateLoop_map_toMsg d (it :: rest) (St.emit d s0 .perfCounter)

/-- Timestamps of a real-mode batch create: every record carries the one
shared `utcnow` reading taken right after the engine call. -/
theorem batch_create_real_timestamps (e : RealEngine) (d : Ev → ℚ)
    (items : List Item) (secret : Int) (opk : Option Int) (s0 : St) :
    ((batch_create_proofs (.real e) d items secret opk s0).1.proofs.map
        MessageResponse.timestamp) =
      List.replicate items.length
        (s0.clock + d .perfCounter +
          (match opk with
           | none => d .engDerive
           | some p => if p = 0 then d .engDerive else 0) +
          (items.length : ℚ) * d .marshal + d .engBatchCreate) := by
  cases items with
  | nil => simp [batch_create_proofs]
  | cons it rest =>
      cases opk with
      | none =>
          simp [batch_create_proofs, RealEngine.batchCreate,
            List.zipWith_map_same, List.map_map, Function.comp, St.emit,
            St.emitMany_replicate_clock, List.map_const]
          simp [List.replicate_succ, Function.comp_def]
      | some p =>
          by_cases hp : p = 0 <;>
          · simp [batch_create_proofs, hp, RealEngine.batchCreate,
              List.zipWith_map_same, List.map_map, Function.comp, St.emit,
              St.emitMany_replicate_clock, List.map_const]
            simp [List.replicate_succ, Function.comp_def]

/-- C5 counterexample: a mock-mode batch create with one item and no
explicit public key performs no `generate_public_key` invocation at all
(the mock branch uses the constant default key), so the key is not
"derived exactly once via derive_public_key(secret)". -/
theorem c5_counterexample :
    ¬ ((batch_create_proofs .mock dOne [⟨1, 2⟩] 7 none st0).2.events.count
        Ev.engDerive = 1) := by
  decide

/-- C5 (amended): with no explicit public key, under the Real engine the
key is derived exactly once per non-empty batch (one
`generate_public_key` invocation) and every output record carries that
derived key; under the Mock engine no derivation is invoked and every
output record carries the fixed default key `17`.  In both variants all
records of one batch share one identical `public_key` and there is never
a per-item derivation. -/
theorem c5_shared_key_derivation (e : RealEngine) (d : Ev → ℚ)
    (items : List Item) (secret : Int) (s0 : St) (h : items ≠ []) :
    ((batch_create_proofs (.real e) d items secret none s0).2.events.count
        Ev.engDerive = s0.events.count Ev.engDerive + 1) ∧
    ((batch_create_proofs (.real e) d items secret none s0).1.proofs.map
        MessageResponse.public_key =
      List.replicate items.length (toInt32 (e.derive (toInt32 secret)))) ∧
    ((batch_create_proofs .mock d items secret none s0).2.events.count
        Ev.engDerive = s0.events.count Ev.engDerive) ∧
    ((batch_create_proofs .mock d items secret none s0).1.proofs.map
        MessageResponse.public_key = List.replicate items.length 17) := by
  cases items with
  | nil => exact absurd rfl h
  | cons it rest =>
      refine ⟨?_, ?_, ?_, ?_⟩
      · simp [batch_create_proofs, St.emit, St.emitMany_events,
          List.count_append, List.count_replicate]
      · have hmsg := batch_create_real_toMsg e d it rest secret none s0
        have h2 := congrArg (List.map CMessage.public_key) hmsg
        simp only [List.map_map] at h2
        simpa [Function.comp_def, MessageResponse.toMsg, pyOrInt,
          RealEngine.create, CMessage.mk32, toInt32_idem] using h2
      · simp [batch_create_proofs, St.emit, mockCreateLoop_events,
          List.count_append, List.count_replicate]
      · have hmsg := batch_create_mock_toMsg d it rest secret none s0
        have h2 := congrArg (List.map CMessage.public_key) hmsg
        simp only [List.map_map] at h2
        simpa [Function.comp_def, MessageResponse.toMsg] using h2

/-- C5 amended, witness at a one-item batch with secret `7`. -/
theorem c5_shared_key_derivation_witness :
    ((batch_create_proofs (.real cexEngine) dOne [⟨1, 2⟩] 7 none st0).2.events.count
        Ev.engDerive = st0.events.count Ev.engDerive + 1) ∧
    ((batch_create_proofs (.real cexEngine) dOne [⟨1, 2⟩] 7 none st0).1.proofs.map
        MessageResponse.public_key =
      List.replicate 1 (toInt32 (cexEngine.derive (toInt32 7)))) ∧
    ((batch_create_proofs .mock dOne [⟨1, 2⟩] 7 none st0).2.events.count
        Ev.engDerive = st0.events.count Ev.engDerive) ∧
    ((batch_create_proofs .mock dOne [⟨1, 2⟩] 7 none st0).1.proofs.map
        MessageResponse.public_key = List.replicate 1 17) :=
  c5_shared_key_derivation cexEngine dOne [⟨1, 2⟩] 7 st0 (by decide)

/-- C6 counterexample: a mock-mode batch create of two items (advancing
clock) attaches two different timestamps — each record gets its own
`utcnow()` reading — so the records of one response do not all carry the
same completion timestamp. -/
theorem c6_counterexample :
    ((batch_create_proofs .mock dOne [⟨1, 2⟩, ⟨3, 4⟩] 7 none st0).1.proofs.map
        MessageResponse.timestamp) = [1, 2] ∧ (1 : ℚ) ≠ 2 := by
  constructor
  · simp only [batch_create_proofs, List.length_cons]
    rw [if_neg (by simp)]
    dsimp only
    rw [mockCreateLoop_timestamps]
    simp [St.emit, st0, dOne, List.range_succ]
    norm_num
  · norm_num

/-- C6 (amended): under the Real engine every record of one batch create
response carries the one shared `utcnow` reading taken after the engine
call (hence all timestamps equal); under the Mock engine the `k`-th
record carries the reading of its own `k`-th `utcnow` call — per-item
stamps that coincide only if the clock does not advance between calls. -/
theorem c6_shared_timestamp (e : RealEngine) (d : Ev → ℚ) (items : List Item)
    (secret : Int) (opk : Option Int) (s0 : St) :
    ((batch_create_proofs (.real e) d items secret opk s0).1.proofs.map
        MessageResponse.timestamp) =
      List.replicate items.length
        (s0.clock + d .perfCounter +
          (match opk with
           | none => d .engDerive
           | some p => if p = 0 then d .engDerive else 0) +
          (items.length : ℚ) * d .marshal + d .engBatchCreate) ∧
    ((batch_create_proofs .mock d items secret opk s0).1.proofs.map
        MessageResponse.timestamp =
      (List.range items.length).map
        (fun k : Nat => s0.clock + d .perfCounter + (k : ℚ) * d .utcnow)) := by
  refine ⟨batch_create_real_timestamps e d items secret opk s0, ?_⟩
  cases items with
  | nil => simp [batch_create_proofs]
  | cons it rest =>
      simp only [batch_create_proofs, List.length_cons]
      rw [if_neg (by simp)]
      dsimp only
      rw [mockCreateLoop_timestamps]
      apply List.map_congr_left
      intro k _
      simp [St.emit]

/-- C10 counterexample: in real mode the single-item `create_zk_proof`
keeps a supplied public key of `0` (the `is None` check does not treat
`0` as omitted): with identity key derivation and secret `7`, the record
carries key `0`, while the omitted-key call carries the derived key `7`. -/
theorem c10_counterexample :
    (create_zk_proof (.real cexEngine) 1 2 7 (some 0)).public_key = 0 ∧
    (create_zk_proof (.real cexEngine) 1 2 7 none).public_key = 7 ∧
    create_zk_proof (.real cexEngine) 1 2 7 (some 0) ≠
      create_zk_proof (.real cexEngine) 1 2 7 none := by
  refine ⟨by decide, by decide, by decide⟩

/-- C10 (amended): a supplied public key of `0` is treated as omitted by
mock-mode create (`pub_key or 17`) and by batch create in both modes
(`request.public_key or generate_public_key(...)`; the mock batch branch
ignores the key entirely) — but real-mode single create tests `is None`,
keeps the `0`, and produces a record whose `public_key` field is `0`
rather than the derived key. -/
theorem c10_zero_key_handling (e : RealEngine) (d : Ev → ℚ)
    (id data secret : Int) (items : List Item) (s0 : St) :
    create_zk_proof .mock id data secret (some 0) =
      create_zk_proof .mock id data secret none ∧
    batch_create_proofs (.real e) d items secret (some 0) s0 =
      batch_create_proofs (.real e) d items secret none s0 ∧
    batch_create_proofs .mock d items secret (some 0) s0 =
      batch_create_proofs .mock d items secret none s0 ∧
    (create_zk_proof (.real e) id data secret (some 0)).public_key = 0 := by
  refine ⟨rfl, ?_, rfl, ?_⟩
  · simp [batch_create_proofs]
  · simp [create_zk_proof, RealEngine.create, CMessage.mk32]
    decide

/-- C1 counterexample: in mock mode with a supplied public key `5`, the
batch create response records carry key `17` (the mock batch branch
ignores the supplied key) while the per-item single create carries `5`,
so batch create is not equivalent to per-item create under every engine
variant. -/
theorem c1_counterexample :
    ¬ (((batch_create_proofs .mock dOne [⟨1, 2⟩] 7 (some 5) st0).1.proofs.map
          MessageResponse.toMsg) =
        [(⟨1, 2⟩ : Item)].map
          (fun it => create_zk_proof .mock it.id it.data 7 (some 5))) := by
  decide

/-- C1 (amended): batch create is equivalent to calling single create
once per pair with the shared secret and public key (i) under the Real
engine whenever the supplied key is not `0` (including the omitted-key
case; a supplied `0` is replaced by derivation in the batch but kept by
single create), and (ii) under the Mock engine with the key omitted and
the items' id/data within signed 32-bit range (the mock batch branch
skips the ctypes truncation that single create applies, and ignores any
supplied key).  Order preservation — the i-th output record's id/data
equal the i-th input pair's, after 32-bit truncation in real mode —
holds unconditionally in both variants. -/
theorem c1_batch_create_refines_single (e : RealEngine) (d : Ev → ℚ)
    (items : List Item) (secret : Int) (opk : Option Int) (s0 : St) :
    (opk ≠ some 0 →
      ((batch_create_proofs (.real e) d items secret opk s0).1.proofs.map
          MessageResponse.toMsg) =
        items.map (fun it => create_zk_proof (.real e) it.id it.data secret opk)) ∧
    ((∀ it ∈ items, Int32Range it.id ∧ Int32Range it.data) →
      ((batch_create_proofs .mock d items secret none s0).1.proofs.map
          MessageResponse.toMsg) =
        items.map (fun it => create_zk_proof .mock it.id it.data secret none)) ∧
    ((batch_create_proofs (.real e) d items secret opk s0).1.proofs.map
        (fun p => (p.id, p.data)) =
      items.map (fun it => (toInt32 it.id, toInt32 it.data))) ∧
    ((batch_create_proofs .mock d items secret opk s0).1.proofs.map
        (fun p => (p.id, p.data)) =
      items.map (fun it => (it.id, it.data))) := by
  refine ⟨?_, ?_, ?_, ?_⟩
  · intro hk
    cases items with
    | nil => simp [batch_create_proofs]
    | cons it rest =>
        rw [batch_create_real_toMsg]
        apply List.map_congr_left
        intro x _
        cases opk with
        | none => simp [create_zk_proof, pyOrInt]
        | some p =>
            have hp : p ≠ 0 := fun h => hk (by rw [h])
            simp [create_zk_proof, pyOrInt, hp]
  · intro hr
    cases items with
    | nil => simp [batch_create_proofs]
    | cons it rest =>
        rw [batch_create_mock_toMsg]
        apply List.map_congr_left
        intro x hx
        obtain ⟨h1, h2⟩ := hr x hx
        have e123 : toInt32 123 = 123 := by decide
        have e456 : toInt32 456 = 456 := by decide
        have e17 : toInt32 17 = 17 := by decide
        simp [create_zk_proof, CMessage.mk32, pyOrInt,
          toInt32_eq_self h1, toInt32_eq_self h2, e123, e456, e17]
  · cases items with
    | nil => simp [batch_create_proofs]
    | cons it rest =>
        have hmsg := batch_create_real_toMsg e d it rest secret opk s0
        have h2 := congrArg (List.map (fun m : CMessage => (m.id, m.data))) hmsg
        simp only [List.map_map] at h2
        simpa [Function.comp_def, MessageResponse.toMsg, RealEngine.create,
          CMessage.mk32] using h2
  · cases items with
    | nil => simp [batch_create_proofs]
    | cons it rest =>
        have hmsg := batch_create_mock_toMsg d it rest secret opk s0
        have h2 := congrArg (List.map (fun m : CMessage => (m.id, m.data))) hmsg
        simp only [List.map_map] at h2
        simpa [Function.comp_def, MessageResponse.toMsg] using h2

/-- C1 amended, witness: one-item batch at secret `7`, key omitted, in
real mode and in mock mode. -/
theorem c1_batch_create_refines_single_witness :
    ((batch_create_proofs (.real cexEngine) dOne [⟨1, 2⟩] 7 none st0).1.proofs.map
        MessageResponse.toMsg) =
      [(⟨1, 2⟩ : Item)].map
        (fun it => create_zk_proof (.real cexEngine) it.id it.data 7 none) ∧
    ((batch_create_proofs .mock dOne [⟨1, 2⟩] 7 none st0).1.proofs.map
        MessageResponse.toMsg) =
      [(⟨1, 2⟩ : Item)].map
        (fun it => create_zk_proof .mock it.id it.data 7 none) :=
  ⟨(c1_batch_create_refines_single cexEngine dOne [⟨1, 2⟩] 7 none st0).1
      (by decide),
   (c1_batch_create_refines_single cexEngine dOne [⟨1, 2⟩] 7 none st0).2.1
      (by decide)⟩

/-- C8 counterexample: with every step taking one clock unit, a
one-record real-mode batch verify reports an elapsed time of 4000 ms
(the timer starts at handler entry and stops after result
materialisation, so marshalling and record construction are included),
not the 1000 ms that measuring only the engine call would give. -/
theorem c8_counterexample :
    (batch_verify_proofs (.real cexEngine) dOne
        [⟨1, 2, 3, 4, 5⟩] 5 st0).1.elapsed_ms ≠
      round3 (dOne .engBatchVerify * 1000) := by
  have h1 : (batch_verify_proofs (.real cexEngine) dOne
      [⟨1, 2, 3, 4, 5⟩] 5 st0).1.elapsed_ms = round3 4000 := by
    simp [batch_verify_proofs, RealEngine.batchVerify, St.emit, St.emitMany,
      st0, dOne]
    norm_num
  rw [h1]
  norm_num [round3, dOne]

/-- C8 (amended): `elapsed_ms` is `round(x, 3)` of the span from the
`perf_counter` reading at handler entry to the reading taken after the
result lists are materialised: for a non-empty batch it includes the
per-item input marshalling, the engine call, and the per-item record
construction (and in real-mode batch create also the shared `utcnow`
call); only response assembly and the response timestamp fall outside
the measured span.  Rounding to three decimal digits is the only part of
the claim the code honours. -/
theorem c8_elapsed_covers_handler (e : RealEngine) (d : Ev → ℚ)
    (proofs : List VerifyReq) (items : List Item) (pk secret p0 : Int)
    (s0 : St) (hp : proofs ≠ []) (hi : items ≠ []) (h0 : p0 ≠ 0) :
    (batch_verify_proofs (.real e) d proofs pk s0).1.elapsed_ms =
      round3 ((d .perfCounter + (proofs.length : ℚ) * d .marshal +
        d .engBatchVerify + (proofs.length : ℚ) * d .buildRecord) * 1000) ∧
    (batch_verify_proofs .mock d proofs pk s0).1.elapsed_ms =
      round3 (d .perfCounter * 1000) ∧
    (batch_create_proofs (.real e) d items secret (some p0) s0).1.elapsed_ms =
      round3 ((d .perfCounter + (items.length : ℚ) * d .marshal +
        d .engBatchCreate + d .utcnow +
        (items.length : ℚ) * d .buildRecord) * 1000) ∧
    (batch_create_proofs .mock d items secret (some p0) s0).1.elapsed_ms =
      round3 ((d .perfCounter + (items.length : ℚ) * d .utcnow) * 1000) := by
  refine ⟨?_, ?_, ?_, ?_⟩
  · cases proofs with
    | nil => exact absurd rfl hp
    | cons p rest =>
        simp [batch_verify_proofs, RealEngine.batchVerify, St.emit,
          St.emitMany_replicate_clock]
        congr 1
        ring
  · cases proofs with
    | nil => exact absurd rfl hp
    | cons p rest =>
        simp [batch_verify_proofs, St.emit]
  · cases items with
    | nil => exact absurd rfl hi
    | cons it rest =>
        simp [batch_create_proofs, h0, St.emit, St.emitMany_replicate_clock]
        congr 1
        ring
  · cases items with
    | nil => exact absurd rfl hi
    | cons it rest =>
        simp [batch_create_proofs, St.emit, mockCreateLoop_clock]
        congr 1
        ring

/-- C8 amended, witness at unit step durations with a one-record verify
batch and a one-item create batch. -/
theorem c8_elapsed_covers_handler_witness :
    (batch_verify_proofs (.real cexEngine) dOne
        [⟨1, 2, 3, 4, 5⟩] 5 st0).1.elapsed_ms =
      round3 ((dOne .perfCounter + (([⟨1, 2, 3, 4, 5⟩] : List VerifyReq).length : ℚ) * dOne .marshal +
        dOne .engBatchVerify + (([⟨1, 2, 3, 4, 5⟩] : List VerifyReq).length : ℚ) * dOne .buildRecord) * 1000) ∧
    (batch_verify_proofs .mock dOne [⟨1, 2, 3, 4, 5⟩] 5 st0).1.elapsed_ms =
      round3 (dOne .perfCounter * 1000) ∧
    (batch_create_proofs (.real cexEngine) dOne [⟨1, 2⟩] 7 (some 5) st0).1.elapsed_ms =
      round3 ((dOne .perfCounter + (([⟨1, 2⟩] : List Item).length : ℚ) * dOne .marshal +
        dOne .engBatchCreate + dOne .utcnow +
        (([⟨1, 2⟩] : List Item).length : ℚ) * dOne .buildRecord) * 1000) ∧
    (batch_create_proofs .mock dOne [⟨1, 2⟩] 7 (some 5) st0).1.elapsed_ms =
      round3 ((dOne .perfCounter + (([⟨1, 2⟩] : List Item).length : ℚ) * dOne .utcnow) * 1000) :=
  c8_elapsed_covers_handler cexEngine dOne [⟨1, 2, 3, 4, 5⟩] [⟨1, 2⟩] 5 7 5
    st0 (by decide) (by decide) (by decide)

/-- C7 counterexample: with an engine whose operations abort, a
one-record batch verify (and a one-item batch create) lets the engine
exception propagate out of the handler uncaught — the outcome is the raw
engine failure, not a handler-reported service-level (HTTP) failure. -/
theorem c7_counterexample :
    batch_verify_proofsE (.real failOps) [⟨1, 2, 3, 4, 5⟩] 5 =
      .error .engineFailure ∧
    batch_create_proofsE (.real failOps) [⟨1, 2⟩] 7 (some 5) =
      .error .engineFailure ∧
    PyErr.engineFailure.isHttp = false := by
  refine ⟨rfl, rfl, rfl⟩

/-- C7 (amended): engine failures are caught and converted into a
service-level `HTTPException(500)` — with no partial record observable —
only by the single-item endpoints (`create_proof`, `verify_proof`); the
batch endpoints have no `try` block, so an engine failure in
`batch_verify` / `generate_public_key` / `batch_create` propagates out of
the handler uncaught (it is left to the surrounding framework, and no
partial result is returned either way). -/
theorem c7_engine_failure_handling (ops : EngineOps) (id data secret : Int)
    (opk : Option Int) (req : VerifyReq) (proofs : List VerifyReq)
    (items : List Item) (pk p0 : Int) :
    (create_zk_proofE (.real ops) id data secret opk = .error () →
      create_proofE (.real ops) id data secret opk =
        .error (.httpException 500)) ∧
    (ops.verifyOp (CMessage.mk32 req.id req.data req.proof_r req.proof_s
        req.public_key) req.public_key = .error () →
      verify_proofE (.real ops) req = .error (.httpException 500)) ∧
    (proofs ≠ [] →
      ops.batchVerifyOp (proofs.map (fun p =>
          CMessage.mk32 p.id p.data p.proof_r p.proof_s p.public_key)) pk =
        .error () →
      batch_verify_proofsE (.real ops) proofs pk = .error .engineFailure) ∧
    (items ≠ [] → p0 ≠ 0 →
      ops.batchCreateOp (items.map (fun it => toInt32 it.id))
          (items.map (fun it => toInt32 it.data)) secret p0 = .error () →
      batch_create_proofsE (.real ops) items secret (some p0) =
        .error .engineFailure) := by
  refine ⟨?_, ?_, ?_, ?_⟩
  · intro h
    simp [create_proofE, h]
  · intro h
    simp [verify_proofE, verify_zk_proofE, h]
  · intro hne h
    cases proofs with
    | nil => exact absurd rfl hne
    | cons p rest =>
        simp only [List.map_cons] at h
        simp [batch_verify_proofsE, h]
  · intro hne h0 h
    cases items with
    | nil => exact absurd rfl hne
    | cons it rest =>
        simp only [List.map_cons] at h
        simp [batch_create_proofsE, h0, h]

/-- C7 amended, witness: the always-failing engine at concrete inputs —
single create and verify report HTTP 500, the batch endpoints surface
the uncaught engine failure. -/
theorem c7_engine_failure_handling_witness :
    create_proofE (.real failOps) 1 100 7 none =
      .error (.httpException 500) ∧
    verify_proofE (.real failOps) ⟨1, 2, 3, 4, 5⟩ =
      .error (.httpException 500) ∧
    batch_verify_proofsE (.real failOps) [⟨9, 8, 7, 6, 5⟩] 5 =
      .error .engineFailure ∧
    batch_create_proofsE (.real failOps) [⟨3, 4⟩] 7 (some 5) =
      .error .engineFailure :=
  ⟨(c7_engine_failure_handling failOps 1 100 7 none ⟨1, 2, 3, 4, 5⟩
      [⟨9, 8, 7, 6, 5⟩] [⟨3, 4⟩] 5 5).1 rfl,
   (c7_engine_failure_handling failOps 1 100 7 none ⟨1, 2, 3, 4, 5⟩
      [⟨9, 8, 7, 6, 5⟩] [⟨3, 4⟩] 5 5).2.1 rfl,
   (c7_engine_failure_handling failOps 1 100 7 none ⟨1, 2, 3, 4, 5⟩
      [⟨9, 8, 7, 6, 5⟩] [⟨3, 4⟩] 5 5).2.2.1 (by decide) rfl,
   (c7_engine_failure_handling failOps 1 100 7 none ⟨1, 2, 3, 4, 5⟩
      [⟨9, 8, 7, 6, 5⟩] [⟨3, 4⟩] 5 5).2.2.2 (by decide) (by decide) rfl⟩
